import Mathlib

/-!
Verification of the aquamarine DRM/KMS backend (src/backend/drm/DRM.cpp)
against its natural-language specification.

The C++ source is shallowly embedded: each relevant function is translated
into an executable Lean definition.  Machine integers are modelled as
Nat/Int with explicit wrapping (`toInt32`, `toUint16`, `toUint32`) at the
points where the C code stores into a fixed-width field.  Kernel ioctls,
the commit-engine implementation (Legacy.cpp, not part of this file's
sources) and the libdisplay-info CVT computation are external
collaborators: they are modelled as parameters/environment records, and
the embedding records every call made to them so that "no kernel call is
made" style properties are expressible.
-/

/-! ## Fixed-width integer casts -/

/-- Store an integer into a C `int32_t` (two's-complement wrap, gcc semantics). -/
def toInt32 (x : Int) : Int :=
  (x + 2 ^ 31) % 2 ^ 32 - 2 ^ 31

/-- Store an integer into a C `uint16_t`. -/
def toUint16 (x : Int) : Nat :=
  (x % 65536).toNat

/-- Store an integer into a C `uint32_t`. -/
def toUint32 (x : Int) : Nat :=
  (x % 2 ^ 32).toNat

/-! ## DRM ABI constants (from drm_mode.h / drm_fourcc.h, public kernel ABI) -/

def DRM_MODE_FLAG_NHSYNC : Nat := 2
def DRM_MODE_FLAG_PVSYNC : Nat := 4
def DRM_MODE_FLAG_INTERLACE : Nat := 16
def DRM_MODE_FLAG_DBLSCAN : Nat := 32
def DRM_MODE_PAGE_FLIP_EVENT : Nat := 1
def DRM_MODE_PAGE_FLIP_ASYNC : Nat := 2
def DRM_FORMAT_MOD_LINEAR : Int := 0
def DRM_FORMAT_MOD_INVALID : Int := 72057594037927935

/-! ## drmModeModeInfo

Embeds the kernel mode blob fields actually read by DRM.cpp.  All numeric
fields are the unsigned machine integers of the C struct, held as `Nat`. -/

structure drmModeModeInfo where
  clock : Nat
  hdisplay : Nat
  hsync_start : Nat
  hsync_end : Nat
  htotal : Nat
  vdisplay : Nat
  vsync_start : Nat
  vsync_end : Nat
  vtotal : Nat
  vscan : Nat
  vrefresh : Nat
  flags : Nat
  name : String
  deriving DecidableEq, Repr

/-- Embedding of `static int32_t calculateRefresh(const drmModeModeInfo& mode)`
(DRM.cpp lines 717-730).  The intermediate `int32_t refresh` stores are
modelled with `toInt32`; C integer division truncates toward zero, which is
`Int.tdiv`. -/
def calculateRefresh (mode : drmModeModeInfo) : Int :=
  let refresh : Int :=
    toInt32 (Int.tdiv (Int.tdiv ((mode.clock : Int) * 1000000) (mode.htotal : Int)
      + Int.tdiv (mode.vtotal : Int) 2) (mode.vtotal : Int))
  let refresh :=
    if mode.flags &&& DRM_MODE_FLAG_INTERLACE ≠ 0 then toInt32 (refresh * 2) else refresh
  let refresh :=
    if mode.flags &&& DRM_MODE_FLAG_DBLSCAN ≠ 0 then toInt32 (Int.tdiv refresh 2) else refresh
  if mode.vscan > 1 then toInt32 (Int.tdiv refresh (mode.vscan : Int)) else refresh

/-- The refresh formula exactly as the specification states it (claim C7):
`round((clock·1e6 + vtotal/2) / (htotal·vtotal))` over the rationals,
multiplied by 2 under the interlace flag, divided by 2 under the doublescan
flag, and divided by `max(1, vscan)`. -/
def specClaimedRefresh (mode : drmModeModeInfo) : Int :=
  let base : Int :=
    round (((mode.clock : ℚ) * 1000000 + (mode.vtotal : ℚ) / 2)
      / ((mode.htotal : ℚ) * (mode.vtotal : ℚ)))
  let r1 : Int := if mode.flags &&& DRM_MODE_FLAG_INTERLACE ≠ 0 then base * 2 else base
  let r2 : Int := if mode.flags &&& DRM_MODE_FLAG_DBLSCAN ≠ 0 then Int.tdiv r1 2 else r1
  Int.tdiv r2 (max 1 (mode.vscan : Int))

/-- Amended refresh formula (claim C7 corrected): the base term is the
integer computation `((clock·1e6 div htotal) + vtotal div 2) div vtotal`
(each division truncating), stored into `int32_t`; the interlace/doublescan
adjustments and the division by `max(1, vscan)` are unchanged. -/
def specAmendedRefresh (mode : drmModeModeInfo) : Int :=
  let base : Int :=
    toInt32 (Int.tdiv (Int.tdiv ((mode.clock : Int) * 1000000) (mode.htotal : Int)
      + Int.tdiv (mode.vtotal : Int) 2) (mode.vtotal : Int))
  let r1 : Int := if mode.flags &&& DRM_MODE_FLAG_INTERLACE ≠ 0 then toInt32 (base * 2) else base
  let r2 : Int := if mode.flags &&& DRM_MODE_FLAG_DBLSCAN ≠ 0 then toInt32 (Int.tdiv r1 2) else r1
  toInt32 (Int.tdiv r2 (max 1 (mode.vscan : Int)))

/-! ## Buffers and framebuffer import (CDRMFB)

`IBuffer` carries the fields of the buffer object that DRM.cpp reads: its
dmabuf attributes and whether it has the `AQ_ATTACHMENT_DRM_KMS_UNIMPORTABLE`
attachment.  `key` models object identity (the C++ code compares buffers by
shared-pointer identity). -/

structure SDmabufAttrs where
  success : Bool
  planes : Nat
  fds : List Int
  modifier : Int
  deriving DecidableEq, Repr

structure IBuffer where
  key : Nat
  dmabuf : SDmabufAttrs
  unimportable : Bool
  deriving DecidableEq, Repr

/-- An imported KMS framebuffer object (fields of `CDRMFB` read by DRM.cpp). -/
structure CDRMFB where
  id : Nat
  bufferKey : Nat
  dropped : Bool
  boHandles : List Nat
  deriving DecidableEq, Repr

/-- A call into the kernel made by the FB code paths. -/
inductive KCall where
  | primeFDToHandle (fd : Int)
  | addFB2WithModifiers
  | addFB2
  | closeFB (id : Nat)
  | rmFB (id : Nat)
  deriving DecidableEq, Repr

/-- Kernel / driver environment for the DRM backend.  Each field models the
outcome of the corresponding external call. -/
structure DRMEnv where
  sessionActive : Bool
  supportsAsyncCommit : Bool
  supportsAddFb2Modifiers : Bool
  primeFDToHandle : Int → Option Nat
  addFB2WithModifiersOk : Bool
  addFB2Ok : Bool
  newFBId : Nat
  closeFBEinval : Bool

/-- The PRIME-import loop of the `CDRMFB` constructor (DRM.cpp lines
1094-1103): convert each dmabuf plane fd into a buffer-object handle,
stopping at the first failure. -/
def primeLoop (env : DRMEnv) : List Int → Bool × List Nat × List KCall
  | [] => (true, [], [])
  | fd :: rest =>
    match env.primeFDToHandle fd with
    | none => (false, [], [KCall.primeFDToHandle fd])
    | some h =>
      match primeLoop env rest with
      | (ok, hs, calls) => (ok, h :: hs, KCall.primeFDToHandle fd :: calls)

/-- Embedding of `CDRMFB::submitBuffer` (DRM.cpp lines 1158-1192).  Returns
the new FB id (0 on failure) and the kernel calls made. -/
def CDRMFB.submitBuffer (env : DRMEnv) (buffer : IBuffer) : Nat × List KCall :=
  let attrs := buffer.dmabuf
  if env.supportsAddFb2Modifiers ∧ attrs.modifier ≠ DRM_FORMAT_MOD_INVALID then
    if env.addFB2WithModifiersOk then (env.newFBId, [KCall.addFB2WithModifiers])
    else (0, [KCall.addFB2WithModifiers])
  else
    if attrs.modifier ≠ DRM_FORMAT_MOD_INVALID ∧ attrs.modifier ≠ DRM_FORMAT_MOD_LINEAR then
      (0, [])
    else if env.addFB2Ok then (env.newFBId, [KCall.addFB2])
    else (0, [KCall.addFB2])

/-- Embedding of `CDRMFB::drop` (DRM.cpp lines 1139-1156).  Note: the source
sets `dropped` and performs the kernel close (`drmModeCloseFB`, falling back
to `drmModeRmFB` on `-EINVAL`), but never resets `id` to 0. -/
def CDRMFB.drop (env : DRMEnv) (fb : CDRMFB) : CDRMFB × List KCall :=
  if fb.dropped then (fb, [])
  else
    let fb1 := { fb with dropped := true }
    if fb.id = 0 then (fb1, [])
    else if env.closeFBEinval then (fb1, [KCall.closeFB fb.id, KCall.rmFB fb.id])
    else (fb1, [KCall.closeFB fb.id])

/-- Result of running the `CDRMFB` constructor: the constructed object, the
(possibly tagged) source buffer, and the kernel calls made. -/
structure MkFBResult where
  fb : CDRMFB
  buffer : IBuffer
  calls : List KCall
  deriving Repr

/-- Embedding of the `CDRMFB` constructor (DRM.cpp lines 1080-1117): refuse
buffers with no dmabuf or carrying the unimportable tag before any kernel
call; PRIME-convert each plane fd (dropping on failure, without tagging);
submit via AddFB2 (tagging the buffer unimportable and dropping on failure). -/
def CDRMFB.construct (env : DRMEnv) (buffer0 : IBuffer) : MkFBResult :=
  let fb0 : CDRMFB := { id := 0, bufferKey := buffer0.key, dropped := false, boHandles := [] }
  if ¬ buffer0.dmabuf.success then
    { fb := fb0, buffer := buffer0, calls := [] }
  else if buffer0.unimportable then
    { fb := fb0, buffer := buffer0, calls := [] }
  else
    match primeLoop env (buffer0.dmabuf.fds.take buffer0.dmabuf.planes) with
    | (false, hs, calls) =>
      match CDRMFB.drop env { fb0 with boHandles := hs } with
      | (fb1, calls2) => { fb := fb1, buffer := buffer0, calls := calls ++ calls2 }
    | (true, hs, calls) =>
      match CDRMFB.submitBuffer env buffer0 with
      | (0, calls2) =>
        match CDRMFB.drop env { fb0 with boHandles := hs } with
        | (fb1, calls3) =>
          { fb := fb1, buffer := { buffer0 with unimportable := true },
            calls := calls ++ calls2 ++ calls3 }
      | (newId, calls2) =>
        { fb := { fb0 with id := newId, boHandles := hs }, buffer := buffer0,
          calls := calls ++ calls2 }

/-- Embedding of `CDRMFB::create` (DRM.cpp lines 1071-1078): run the
constructor and return no FB when the resulting id is 0. -/
def CDRMFB.create (env : DRMEnv) (buffer0 : IBuffer) : Option CDRMFB × IBuffer × List KCall :=
  let r := CDRMFB.construct env buffer0
  if r.fb.id = 0 then (none, r.buffer, r.calls) else (some r.fb, r.buffer, r.calls)

/-! ## Output state, planes, CRTCs, connectors -/

/-- An output mode (`SOutputMode`): pixel size (the C `Vector2D` doubles are
integral here, as produced by the connector scan), refresh in mHz, and the
optional raw kernel mode blob. -/
structure SOutputMode where
  pixelX : Int
  pixelY : Int
  refreshRate : Int
  modeInfo : Option drmModeModeInfo
  deriving DecidableEq, Repr

/-- The compositor-facing pending output state (`COutputState::SInternalState`)
restricted to the fields DRM.cpp reads.  The `committed` bitmask is modelled
by one boolean per bit tested in the source. -/
structure COutputState where
  committedEnabled : Bool
  committedFormat : Bool
  committedMode : Bool
  committedBuffer : Bool
  enabled : Bool
  adaptiveSync : Bool
  presentationImmediate : Bool
  mode : Option SOutputMode
  customMode : Option SOutputMode
  buffer : Option IBuffer
  deriving Repr

/-- The per-plane FB slots of `SDRMPlane` used by the commit paths. -/
structure SDRMPlane where
  front : Option CDRMFB
  back : Option CDRMFB
  deriving DecidableEq, Repr

/-- `SDRMCRTC`: its assigned primary and cursor planes (possibly absent). -/
structure SDRMCRTC where
  primary : Option SDRMPlane
  cursor : Option SDRMPlane
  deriving DecidableEq, Repr

/-- `SDRMConnector` state read and written by the commit and page-flip paths. -/
structure SDRMConnector where
  connected : Bool
  crtc : Option SDRMCRTC
  canDoVrr : Bool
  isPageFlipPending : Bool
  refresh : Int
  pendingCursorFB : Option CDRMFB
  deriving DecidableEq, Repr

/-! ## CVT mode synthesis (SDRMConnectorCommitData::calculateMode)

`di_cvt_compute` lives in libdisplay-info, an external library; it is
modelled as a function parameter from options to timing.  The C doubles of
the timing record are modelled as exact rationals. -/

def DI_CVT_REDUCED_BLANKING_NONE : Nat := 0

structure di_cvt_options where
  red_blank_ver : Nat
  h_pixels : Int
  v_lines : Int
  ip_freq_rqd : ℚ
  deriving DecidableEq, Repr

structure di_cvt_timing where
  act_pixel_freq : ℚ
  h_front_porch : Int
  h_sync : Int
  h_back_porch : Int
  v_lines_rnd : Int
  v_front_porch : Int
  v_sync : Int
  v_back_porch : Int
  act_frame_rate : ℚ
  deriving DecidableEq, Repr

/-- Core of `SDRMConnectorCommitData::calculateMode` (DRM.cpp lines
1194-1227), applied to the selected mode `MODE`.  `cvt` is the external
`di_cvt_compute`.  Faithful to the source, including that `hdisplay` and
`hsync_start` are computed from `MODE->pixelSize.y` (the pixel height). -/
def calculateModeOf (cvt : di_cvt_options → di_cvt_timing) (MODE : SOutputMode) :
    drmModeModeInfo :=
  let options : di_cvt_options :=
    { red_blank_ver := DI_CVT_REDUCED_BLANKING_NONE
      h_pixels := MODE.pixelX
      v_lines := MODE.pixelY
      ip_freq_rqd := if MODE.refreshRate ≠ 0 then (MODE.refreshRate : ℚ) / 1000 else 60 }
  let timing := cvt options
  let hsync_start : Nat := toUint16 (MODE.pixelY + timing.h_front_porch)
  let vsync_start : Nat := toUint16 (timing.v_lines_rnd + timing.v_front_porch)
  let hsync_end : Nat := toUint16 ((hsync_start : Int) + timing.h_sync)
  let vsync_end : Nat := toUint16 ((vsync_start : Int) + timing.v_sync)
  { clock := toUint32 (round (timing.act_pixel_freq * 1000))
    hdisplay := toUint16 MODE.pixelY
    hsync_start := hsync_start
    hsync_end := hsync_end
    htotal := toUint16 ((hsync_end : Int) + timing.h_back_porch)
    vdisplay := toUint16 timing.v_lines_rnd
    vsync_start := vsync_start
    vsync_end := vsync_end
    vtotal := toUint16 ((vsync_end : Int) + timing.v_back_porch)
    vscan := 0
    vrefresh := toUint32 (round timing.act_frame_rate)
    flags := DRM_MODE_FLAG_NHSYNC ||| DRM_MODE_FLAG_PVSYNC
    name := toString MODE.pixelX ++ "x" ++ toString MODE.pixelY }

/-- `SDRMConnectorCommitData::calculateMode` selects
`STATE.mode ? STATE.mode : STATE.customMode`; `none` models the null-pointer
dereference that the source performs when neither is present. -/
def SDRMConnectorCommitData.calculateMode (cvt : di_cvt_options → di_cvt_timing)
    (STATE : COutputState) : Option drmModeModeInfo :=
  match (if STATE.mode.isSome then STATE.mode else STATE.customMode) with
  | none => none
  | some MODE => some (calculateModeOf cvt MODE)

/-! ## Connector-level commit (SDRMConnector::commitState) -/

/-- The commit-data record handed to the engine (`SDRMConnectorCommitData`). -/
structure SDRMConnectorCommitData where
  mainFB : Option CDRMFB
  cursorFB : Option CDRMFB
  modeset : Bool
  blocking : Bool
  flags : Nat
  test : Bool
  modeInfo : drmModeModeInfo
  deriving DecidableEq, Repr

/-- Embedding of `SDRMConnector::applyCommit` (DRM.cpp lines 896-908).
`committedMode` is `output->state->state().committed & AQ_OUTPUT_STATE_MODE`.
Returns `none` for the null-pointer dereferences the source would perform
when the connector has no CRTC or the CRTC has no primary plane. -/
def SDRMConnector.applyCommit (committedMode : Bool) (data : SDRMConnectorCommitData)
    (conn : SDRMConnector) : Option SDRMConnector :=
  match conn.crtc with
  | none => none
  | some crtc =>
    match crtc.primary with
    | none => none
    | some prim =>
      let prim2 : SDRMPlane := { back := prim.front, front := data.mainFB }
      let cursor2 : Option SDRMPlane :=
        match crtc.cursor with
        | some cur => some { back := cur.front, front := data.cursorFB }
        | none => none
      let conn2 : SDRMConnector :=
        { conn with
          crtc := some { crtc with primary := some prim2, cursor := cursor2 }
          pendingCursorFB := none }
      some (if committedMode then { conn2 with refresh := calculateRefresh data.modeInfo }
            else conn2)

/-- Embedding of `SDRMConnector::commitState` (DRM.cpp lines 885-894).
`engineOk` is the result of the external engine call
(`backend->impl->commit`, implemented in Legacy.cpp).  On success of a
non-test commit the new state is applied; otherwise `rollbackCommit` runs,
whose body is empty. -/
def SDRMConnector.commitState (engineOk : Bool) (committedMode : Bool)
    (data : SDRMConnectorCommitData) (conn : SDRMConnector) :
    Bool × Option SDRMConnector :=
  if engineOk ∧ ¬ data.test then
    (engineOk, SDRMConnector.applyCommit committedMode data conn)
  else
    (engineOk, some conn)

/-! ## Output-level commit (CDRMOutput::commitState)

The embedding returns, besides the post connector state, the ordered trace
of externally visible actions: error logs, kernel calls made by the
FB-importing step, the engine call, the output's commit event and the
pending state's `onCommit`.  `crash` marks a null-pointer dereference the
source performs. -/

inductive CEvent where
  | errorLog (msg : String)
  | kernel (c : KCall)
  | engineCommit (test : Bool)
  | commitEmit
  | onCommit
  deriving DecidableEq, Repr

inductive CommitRet where
  | ok
  | failed
  | crash
  deriving DecidableEq, Repr

structure CommitResult where
  ret : CommitRet
  conn : SDRMConnector
  events : List CEvent
  deriving Repr

/-- Tail of `CDRMOutput::commitState` from the construction of the
commit-data record (DRM.cpp lines 998-1040): dereference `MODE` for the
mode blob (crashing when no mode is present), call the connector commit,
then emit the commit event and run `onCommit` regardless of the engine's
verdict. -/
def CDRMOutput.commitTail (cvt : di_cvt_options → di_cvt_timing) (engineOk : Bool)
    (onlyTest : Bool) (STATE : COutputState) (conn : SDRMConnector)
    (NEEDS_RECONFIG BLOCKING : Bool) (flags : Nat) (MODE : Option SOutputMode)
    (mainFB : Option CDRMFB) (kevents : List CEvent) : CommitResult :=
  match MODE with
  | none => { ret := CommitRet.crash, conn := conn, events := kevents }
  | some m =>
    let modeInfo : drmModeModeInfo :=
      match m.modeInfo with
      | some mi => mi
      | none => calculateModeOf cvt m
    let data : SDRMConnectorCommitData :=
      { mainFB := mainFB, cursorFB := none, modeset := NEEDS_RECONFIG,
        blocking := BLOCKING, flags := flags, test := onlyTest, modeInfo := modeInfo }
    match SDRMConnector.commitState engineOk STATE.committedMode data conn with
    | (_, none) =>
      { ret := CommitRet.crash, conn := conn,
        events := kevents ++ [CEvent.engineCommit onlyTest] }
    | (ok, some conn2) =>
      { ret := if ok then CommitRet.ok else CommitRet.failed, conn := conn2,
        events := kevents ++ [CEvent.engineCommit onlyTest, CEvent.commitEmit, CEvent.onCommit] }

/-- The FB-reuse selection of `CDRMOutput::commitState` (DRM.cpp lines
1003-1012): take the CRTC primary plane's back FB when its buffer is the
committed one, else the front FB when its buffer is the committed one,
else nothing (import needed). -/
def findMatchingFB (prim : SDRMPlane) (buf : IBuffer) : Option CDRMFB :=
  let backMatch : Option CDRMFB :=
    match prim.back with
    | some fb => if fb.bufferKey = buf.key then some fb else none
    | none => none
  let frontMatch : Option CDRMFB :=
    match prim.front with
    | some fb => if fb.bufferKey = buf.key then some fb else none
    | none => none
  if backMatch.isSome then backMatch else frontMatch

/-- Embedding of `CDRMOutput::commitState(bool onlyTest)` (DRM.cpp lines
930-1041), with the precondition checks, the page-flip gate, the FB
reuse-or-import step and the engine call in source order. -/
def CDRMOutput.commitState (env : DRMEnv) (cvt : di_cvt_options → di_cvt_timing)
    (engineOk : Bool) (onlyTest : Bool) (STATE : COutputState) (conn : SDRMConnector) :
    CommitResult :=
  if ¬ env.sessionActive then
    { ret := CommitRet.failed, conn := conn, events := [CEvent.errorLog "drm: Session inactive"] }
  else
    match conn.crtc with
    | none =>
      { ret := CommitRet.failed, conn := conn,
        events := [CEvent.errorLog "drm: No CRTC attached to output"] }
    | some crtc =>
      if STATE.committedEnabled ∧ STATE.enabled ∧ (STATE.mode.isNone ∧ STATE.customMode.isSome) then
        { ret := CommitRet.failed, conn := conn,
          events := [CEvent.errorLog "drm: No mode on enable commit"] }
      else if STATE.adaptiveSync ∧ ¬ conn.canDoVrr then
        { ret := CommitRet.failed, conn := conn,
          events := [CEvent.errorLog "drm: No Adaptive sync support for output"] }
      else if STATE.presentationImmediate ∧ ¬ env.supportsAsyncCommit then
        { ret := CommitRet.failed, conn := conn,
          events := [CEvent.errorLog "drm: No Immediate presentation support in the backend"] }
      else if STATE.committedBuffer ∧ STATE.buffer.isNone then
        { ret := CommitRet.failed, conn := conn,
          events := [CEvent.errorLog "drm: No buffer committed"] }
      else
        let NEEDS_RECONFIG := STATE.committedEnabled ∨ STATE.committedFormat ∨ STATE.committedMode
        let BLOCKING := NEEDS_RECONFIG ∨ ¬ STATE.committedBuffer
        let MODE := if STATE.mode.isSome then STATE.mode else STATE.customMode
        if ¬ onlyTest ∧ NEEDS_RECONFIG ∧ STATE.enabled ∧ MODE.isNone then
          { ret := CommitRet.crash, conn := conn, events := [] }
        else if ¬ onlyTest ∧ ¬ BLOCKING ∧ conn.isPageFlipPending then
          { ret := CommitRet.failed, conn := conn,
            events := [CEvent.errorLog "drm: Cannot commit when a page-flip is awaiting"] }
        else
          let flags : Nat :=
            if ¬ onlyTest then
              (if STATE.enabled then DRM_MODE_PAGE_FLIP_EVENT else 0)
                ||| (if STATE.presentationImmediate then DRM_MODE_PAGE_FLIP_ASYNC else 0)
            else 0
          match STATE.buffer with
          | none =>
            CDRMOutput.commitTail cvt engineOk onlyTest STATE conn NEEDS_RECONFIG BLOCKING
              flags MODE none []
          | some buf =>
            match crtc.primary with
            | none => { ret := CommitRet.crash, conn := conn, events := [] }
            | some prim =>
              match findMatchingFB prim buf with
              | some fb =>
                CDRMOutput.commitTail cvt engineOk onlyTest STATE conn NEEDS_RECONFIG BLOCKING
                  flags MODE (some fb) []
              | none =>
                match CDRMFB.create env buf with
                | (none, _, calls) =>
                  { ret := CommitRet.failed, conn := conn,
                    events := calls.map CEvent.kernel
                      ++ [CEvent.errorLog "drm: Buffer failed to import to KMS"] }
                | (some fb, _, calls) =>
                  CDRMOutput.commitTail cvt engineOk onlyTest STATE conn NEEDS_RECONFIG BLOCKING
                    flags MODE (some fb) (calls.map CEvent.kernel)

/-! ## Page-flip completion handler (handlePF) -/

/-- Events observable from the page-flip handler.  The four boolean fields of
`present` are the VSYNC, HW_CLOCK, HW_COMPLETION and ZEROCOPY present flags. -/
inductive PFEvent where
  | onPresent
  | present (presented : Bool) (seq : Nat) (tv_sec : Nat) (tv_nsec : Nat) (refreshNs : Int)
      (vsync hwClock hwCompletion zerocopy : Bool)
  | frame
  deriving DecidableEq, Repr

/-- The pending page-flip record handed to the kernel callback. -/
structure SDRMPageFlip where
  connector : Option SDRMConnector
  deriving Repr

/-- Embedding of `static void handlePF` (DRM.cpp lines 484-517).  Returns the
updated connector (the pending flag is cleared before the connected/CRTC
check, exactly as in the source) and the events emitted. -/
def handlePF (sessionActive : Bool) (seq tv_sec tv_usec : Nat) (pageFlip : SDRMPageFlip) :
    Option SDRMConnector × List PFEvent :=
  match pageFlip.connector with
  | none => (none, [])
  | some conn0 =>
    let conn := { conn0 with isPageFlipPending := false }
    if ¬ conn.connected ∨ conn.crtc.isNone then
      (some conn, [])
    else
      let refreshNs : Int :=
        toInt32 (if conn.refresh ≠ 0 then Int.tdiv 1000000000000 conn.refresh else 0)
      (some conn,
        [PFEvent.onPresent,
         PFEvent.present sessionActive seq tv_sec (tv_usec * 1000) refreshNs true true true true]
          ++ (if sessionActive then [PFEvent.frame] else []))

/-! ## Resource initialization (CDRMBackend::initResources) -/

/-- The slice of `drmModeRes` that `initResources` iterates over. -/
structure drmModeRes where
  crtcs : List Nat
  deriving Repr

/-- Environment of kernel queries made during resource initialization. -/
structure InitEnv where
  getResources : Option drmModeRes
  getCrtc : Nat → Option Nat
  getCrtcProps : Nat → Bool
  getPlaneResources : Option (List Nat)
  getPlane : Nat → Bool
  planeInit : Nat → Bool

/-- The CRTC enumeration loop of `initResources` (DRM.cpp lines 309-333):
per kernel CRTC id, query the CRTC (for its gamma size) and its properties,
failing the whole initialization if any query fails. -/
def crtcLoop (env : InitEnv) : List Nat → Option (List (Nat × Nat))
  | [] => some []
  | id :: rest =>
    match env.getCrtc id with
    | none => none
    | some gammaSize =>
      if ¬ env.getCrtcProps id then none
      else
        match crtcLoop env rest with
        | none => none
        | some l => some ((id, gammaSize) :: l)

/-- The plane enumeration loop of `initResources` (DRM.cpp lines 349-374). -/
def planeLoop (env : InitEnv) : List Nat → Bool
  | [] => true
  | id :: rest =>
    if ¬ env.getPlane id then false
    else if ¬ env.planeInit id then false
    else planeLoop env rest

/-- Embedding of `CDRMBackend::initResources` (DRM.cpp lines 300-380): build
the CRTC list, fail critically when more than 32 CRTCs were enumerated, then
enumerate planes. -/
def CDRMBackend.initResources (env : InitEnv) : Bool :=
  match env.getResources with
  | none => false
  | some res =>
    match crtcLoop env res.crtcs with
    | none => false
    | some crtcs =>
      if crtcs.length > 32 then false
      else
        match env.getPlaneResources with
        | none => false
        | some planeIds => planeLoop env planeIds

/-- Embedding of the success spine of `CDRMBackend::attempt` (DRM.cpp lines
131-200): a backend is returned iff the session, GPU scan, registration,
feature check and resource initialization all succeed.  The earlier stages
are external collaborators, passed as booleans. -/
def CDRMBackend.attempt (sessionOk sessionActiveOk gpusFound registerOk featuresOk : Bool)
    (env : InitEnv) : Bool :=
  sessionOk && sessionActiveOk && gpusFound && registerOk && featuresOk &&
    CDRMBackend.initResources env

/-! ## Helper lemmas -/

theorem toInt32_idem (x : Int) : toInt32 (toInt32 x) = toInt32 x := by
  unfold toInt32
  omega

theorem crtcLoop_length (env : InitEnv) :
    ∀ ids l, crtcLoop env ids = some l → l.length = ids.length := by
  intro ids
  induction ids with
  | nil => intro l h; simp [crtcLoop] at h; simp [← h]
  | cons id rest ih =>
    intro l h
    unfold crtcLoop at h
    cases hq : env.getCrtc id with
    | none => rw [hq] at h; simp at h
    | some g =>
      rw [hq] at h
      by_cases hp : env.getCrtcProps id
      · simp [hp] at h
        cases hr : crtcLoop env rest with
        | none => rw [hr] at h; simp at h
        | some l2 =>
          rw [hr] at h
          simp at h
          rw [← h]
          simp [ih l2 hr]
      · simp [hp] at h

/-! ## Concrete fixtures used by witnesses and counterexamples -/

/-- A kernel environment where every call succeeds. -/
def envA : DRMEnv :=
  { sessionActive := true, supportsAsyncCommit := false, supportsAddFb2Modifiers := true,
    primeFDToHandle := fun _ => some 7, addFB2WithModifiersOk := true, addFB2Ok := true,
    newFBId := 42, closeFBEinval := false }

/-- A concrete CVT timing function (the 1080p CEA timing). -/
def cvtA : di_cvt_options → di_cvt_timing := fun _ =>
  { act_pixel_freq := 148500, h_front_porch := 88, h_sync := 44, h_back_porch := 148,
    v_lines_rnd := 1080, v_front_porch := 4, v_sync := 5, v_back_porch := 36,
    act_frame_rate := 60 }

def modeInfoA : drmModeModeInfo :=
  { clock := 148500, hdisplay := 1920, hsync_start := 2008, hsync_end := 2052, htotal := 2200,
    vdisplay := 1080, vsync_start := 1084, vsync_end := 1089, vtotal := 1125, vscan := 0,
    vrefresh := 60, flags := 0, name := "1920x1080" }

def bufA : IBuffer :=
  { key := 9, dmabuf := { success := true, planes := 1, fds := [3], modifier := 0 },
    unimportable := false }

def primA : SDRMPlane := { front := none, back := none }

def crtcA : SDRMCRTC := { primary := some primA, cursor := none }

def connA : SDRMConnector :=
  { connected := true, crtc := some crtcA, canDoVrr := false, isPageFlipPending := false,
    refresh := 60000, pendingCursorFB := none }

def dataA : SDRMConnectorCommitData :=
  { mainFB := some { id := 42, bufferKey := 9, dropped := false, boHandles := [7] },
    cursorFB := none, modeset := false, blocking := false, flags := 1, test := false,
    modeInfo := modeInfoA }

/-! ## C7 — refresh-rate formula -/

/-- C7 counterexample input: a mode blob with clock 122620 kHz, htotal 1000,
vtotal 1503 (no interlace/doublescan, vscan 0). -/
def modeC7 : drmModeModeInfo :=
  { clock := 122620, hdisplay := 1000, hsync_start := 0, hsync_end := 0, htotal := 1000,
    vdisplay := 1500, vsync_start := 0, vsync_end := 0, vtotal := 1503, vscan := 0,
    vrefresh := 82, flags := 0, name := "" }

/-- C7 counterexample: the specification's rounded formula
`round((clock·1e6 + vtotal/2)/(htotal·vtotal))` gives 81584 on `modeC7`,
while the code's stored refresh (`calculateRefresh`) is 81583: the code
first divides `clock·1e6` by `htotal` (truncating) and only then performs
the `+ vtotal/2` rounding adjustment against `vtotal`. -/
theorem C7_counterexample :
    specClaimedRefresh modeC7 ≠ calculateRefresh modeC7 := by
  have h1 : specClaimedRefresh modeC7 = 81584 := by
    unfold specClaimedRefresh modeC7
    simp only [Nat.zero_and, ne_eq, not_true_eq_false, if_false, ite_false]
    norm_num
    rw [round_eq, Int.floor_eq_iff]
    norm_num
  have h2 : calculateRefresh modeC7 = 81583 := by decide
  rw [h1, h2]
  decide

/-- C7 (amended): for every mode blob, the stored refresh equals
`((clock·1e6 div htotal) + vtotal div 2) div vtotal` (truncating integer
divisions, stored into int32), doubled under the interlace flag, halved
under the doublescan flag, and divided by `max(1, vscan)`. -/
theorem C7_refresh_amended (mode : drmModeModeInfo) :
    calculateRefresh mode = specAmendedRefresh mode := by
  unfold calculateRefresh specAmendedRefresh
  by_cases hv : mode.vscan > 1
  · have hmax : max 1 (mode.vscan : Int) = (mode.vscan : Int) := by
      omega
    simp only [hv, if_pos, hmax]
  · have hmax : max 1 (mode.vscan : Int) = 1 := by
      omega
    simp only [hv, if_neg, hmax, Int.tdiv_one]
    by_cases h1 : mode.flags &&& DRM_MODE_FLAG_INTERLACE ≠ 0 <;>
      by_cases h2 : mode.flags &&& DRM_MODE_FLAG_DBLSCAN ≠ 0 <;>
        simp [h1, h2, toInt32_idem]

/-! ## C1 — connector commit applies the FB rotation or leaves state untouched -/

/-- C1: for every connector commit, if the engine call succeeded and the
commit is not a test, the CRTC's primary plane slots are rotated (prior
front becomes back, the submitted main FB becomes front, and likewise for
the cursor plane with the cursor FB when a cursor plane is present); if the
engine call failed or the commit is a test, the connector state — in
particular every plane's front/back FB pointer — is exactly its pre-commit
value. -/
theorem C1_commit_fb_rotation (engineOk committedMode : Bool)
    (data : SDRMConnectorCommitData) (conn : SDRMConnector)
    (crtc : SDRMCRTC) (prim : SDRMPlane)
    (hcrtc : conn.crtc = some crtc) (hprim : crtc.primary = some prim) :
    (SDRMConnector.commitState engineOk committedMode data conn).1 = engineOk ∧
    (engineOk = true → data.test = false →
      ∃ conn2, (SDRMConnector.commitState engineOk committedMode data conn).2 = some conn2 ∧
        ∃ crtc2, conn2.crtc = some crtc2 ∧
          crtc2.primary = some { front := data.mainFB, back := prim.front } ∧
          crtc2.cursor = (match crtc.cursor with
            | some cur => some { front := data.cursorFB, back := cur.front }
            | none => none)) ∧
    ((engineOk = false ∨ data.test = true) →
      (SDRMConnector.commitState engineOk committedMode data conn).2 = some conn) := by
  refine ⟨?_, ?_, ?_⟩
  · unfold SDRMConnector.commitState
    split <;> rfl
  · intro hok htest
    unfold SDRMConnector.commitState SDRMConnector.applyCommit
    rw [hok, htest]
    simp only [hcrtc, hprim]
    by_cases hcm : committedMode <;> simp [hcm]
  · intro h
    unfold SDRMConnector.commitState
    rcases h with h | h <;> simp [h]

/-- C1 witness: the rotation theorem applied to a concrete successful
non-test commit. -/
theorem C1_commit_fb_rotation_witness :
    ∃ conn2, (SDRMConnector.commitState true true dataA connA).2 = some conn2 ∧
      ∃ crtc2, conn2.crtc = some crtc2 ∧
        crtc2.primary = some { front := dataA.mainFB, back := primA.front } ∧
        crtc2.cursor = (match crtcA.cursor with
          | some cur => some { front := dataA.cursorFB, back := cur.front }
          | none => none) :=
  (C1_commit_fb_rotation true true dataA connA crtcA primA rfl rfl).2.1 rfl rfl

/-! ## C5 — FB id / dropped invariant and single release -/

/-- A buffer whose import succeeds end to end under `envA`. -/
def fbA : CDRMFB := (CDRMFB.construct envA bufA).fb

/-- C5 counterexample: the FB produced by a successful import has id 42, and
after `drop()` it has `dropped = true` while its `id` is still 42 — so the
claimed invariant "id != 0 iff dropped == false" (and in particular "after
drop() the FB's id is 0") is false: the source never resets `id`. -/
theorem C5_counterexample :
    fbA.id = 42 ∧ fbA.dropped = false ∧
    (CDRMFB.drop envA fbA).1.dropped = true ∧ (CDRMFB.drop envA fbA).1.id = 42 := by
  decide

/-- Helper: an FB built by the constructor with a nonzero id was built on the
all-success path, hence is not dropped. -/
theorem construct_id_pos_not_dropped (env : DRMEnv) (buf : IBuffer)
    (h : (CDRMFB.construct env buf).fb.id ≠ 0) :
    (CDRMFB.construct env buf).fb.dropped = false := by
  unfold CDRMFB.construct at h ⊢
  cases hsuc : buf.dmabuf.success with
  | false => simp [hsuc] at h
  | true =>
    cases hun : buf.unimportable with
    | true => simp [hsuc, hun] at h
    | false =>
      simp only [hsuc, hun, Bool.not_true, Bool.false_eq_true, if_false, ite_false,
        not_false_eq_true, reduceIte] at h ⊢
      rcases hp : primeLoop env (buf.dmabuf.fds.take buf.dmabuf.planes) with ⟨ok, hs2, calls⟩
      cases ok with
      | false => rw [hp] at h; simp [CDRMFB.drop] at h
      | true =>
        rcases hsub : CDRMFB.submitBuffer env buf with ⟨newId, calls2⟩
        cases newId with
        | zero => rw [hp] at h; simp [hsub, CDRMFB.drop] at h
        | succ n => simp

/-- C5 (amended): for every FB object, `drop()` leaves `id` unchanged (it is
never reset to 0); a drop on an already-dropped FB is a no-op with no kernel
call; after a drop, a second drop performs no kernel call, so the kernel FB
id is released at most once; a kernel close is only ever performed by a
first drop of an FB with nonzero id; and `create` hands out only FBs with
`id ≠ 0` and `dropped = false`. -/
theorem C5_drop_amended (env : DRMEnv) (fb : CDRMFB) :
    ((CDRMFB.drop env fb).1.id = fb.id) ∧
    (fb.dropped = true → CDRMFB.drop env fb = (fb, [])) ∧
    ((CDRMFB.drop env (CDRMFB.drop env fb).1).2 = []) ∧
    ((CDRMFB.drop env fb).2 ≠ [] → fb.dropped = false ∧ fb.id ≠ 0) ∧
    (∀ buf fb2 b2 cs, CDRMFB.create env buf = (some fb2, b2, cs) →
      fb2.id ≠ 0 ∧ fb2.dropped = false) := by
  refine ⟨?_, ?_, ?_, ?_, ?_⟩
  · unfold CDRMFB.drop
    by_cases h : fb.dropped
    · simp [h]
    · by_cases h2 : fb.id = 0 <;> by_cases h3 : env.closeFBEinval <;> simp [h, h2, h3]
  · intro h
    unfold CDRMFB.drop
    simp [h]
  · unfold CDRMFB.drop
    by_cases h : fb.dropped
    · simp [h]
    · by_cases h2 : fb.id = 0 <;> by_cases h3 : env.closeFBEinval <;> simp [h, h2, h3]
  · intro h
    unfold CDRMFB.drop at h
    by_cases h1 : fb.dropped
    · simp [h1] at h
    · by_cases h2 : fb.id = 0
      · simp [h1, h2] at h
      · exact ⟨by simpa using h1, h2⟩
  · intro buf fb2 b2 cs h
    unfold CDRMFB.create at h
    by_cases hid : (CDRMFB.construct env buf).fb.id = 0
    · simp [hid] at h
    · simp only [hid, if_neg, if_false] at h
      have hfb : fb2 = (CDRMFB.construct env buf).fb := by
        have := congrArg Prod.fst h
        simpa using this.symm
      rw [hfb]
      exact ⟨hid, construct_id_pos_not_dropped env buf hid⟩

/-- C5 witness: the amended drop/create properties at a concrete FB. -/
theorem C5_drop_amended_witness :
    CDRMFB.drop envA { fbA with dropped := true } = ({ fbA with dropped := true }, []) :=
  (C5_drop_amended envA { fbA with dropped := true }).2.1 rfl

/-! ## C4 — unimportable tagging -/

/-- An environment whose PRIME fd-to-handle conversion fails. -/
def envPrimeFail : DRMEnv := { envA with primeFDToHandle := fun _ => none }

/-- C4 counterexample: importing `bufA` under an environment where the PRIME
handle conversion fails produces no FB (the import fails), yet the buffer is
NOT tagged unimportable — the source only adds the unimportable attachment
when `submitBuffer` (AddFB) returns 0, not on PRIME failure. -/
theorem C4_counterexample :
    (CDRMFB.create envPrimeFail bufA).1 = none ∧
    (CDRMFB.create envPrimeFail bufA).2.1.unimportable = false := by
  decide

/-- C4 (amended): a buffer already tagged unimportable short-circuits, the
attempt failing with no kernel call at all and the buffer unchanged; and for
an untagged buffer with a dmabuf, the attempt tags the buffer unimportable
exactly when every PRIME conversion succeeded and the KMS AddFB submission
step then returned failure (fb id 0) — a PRIME-stage failure drops the FB
without tagging. -/
theorem C4_unimportable_amended (env : DRMEnv) (buf : IBuffer) :
    (buf.unimportable = true → CDRMFB.create env buf = (none, buf, [])) ∧
    (buf.dmabuf.success = true → buf.unimportable = false →
      ((CDRMFB.create env buf).2.1.unimportable = true ↔
        (primeLoop env (buf.dmabuf.fds.take buf.dmabuf.planes)).1 = true ∧
        (CDRMFB.submitBuffer env buf).1 = 0)) := by
  constructor
  · intro h
    unfold CDRMFB.create CDRMFB.construct
    by_cases h1 : ¬ buf.dmabuf.success <;> simp [h1, h]
  · intro hs hu
    unfold CDRMFB.create CDRMFB.construct
    simp only [hs, hu, Bool.true_eq_false, not_true_eq_false, if_false, ite_false,
      Bool.not_true, reduceIte]
    rcases hp : primeLoop env (buf.dmabuf.fds.take buf.dmabuf.planes) with ⟨ok, hss, calls⟩
    cases ok with
    | false =>
      simp only [CDRMFB.drop]
      simp [hu]
    | true =>
      rcases hsub : CDRMFB.submitBuffer env buf with ⟨newId, calls2⟩
      cases newId with
      | zero =>
        simp only [CDRMFB.drop]
        simp
      | succ n => simp [hu]

/-- C4 witness: the short-circuit branch of the amended theorem at a concrete
tagged buffer. -/
theorem C4_unimportable_amended_witness :
    CDRMFB.create envA { bufA with unimportable := true } =
      (none, { bufA with unimportable := true }, []) :=
  (C4_unimportable_amended envA { bufA with unimportable := true }).1 rfl

/-! ## C2 — page-flip gate on non-blocking commits -/

/-- C2: for every non-test commit whose committed set contains BUFFER and
none of ENABLED/FORMAT/MODE (hence non-blocking), if a page-flip is pending
on the connector — the preceding precondition checks passing — the commit
fails with exactly the error "Cannot commit when a page-flip is awaiting",
the connector state is unchanged, and no engine call and no kernel call is
made (the event trace holds only the error log). -/
theorem C2_pageflip_gate (env : DRMEnv) (cvt : di_cvt_options → di_cvt_timing)
    (engineOk : Bool) (STATE : COutputState) (conn : SDRMConnector)
    (hactive : env.sessionActive = true)
    (hcrtc : conn.crtc.isSome = true)
    (hbuf : STATE.committedBuffer = true)
    (hen : STATE.committedEnabled = false)
    (hfmt : STATE.committedFormat = false)
    (hmode : STATE.committedMode = false)
    (hvrr : STATE.adaptiveSync = false ∨ conn.canDoVrr = true)
    (hpres : STATE.presentationImmediate = false ∨ env.supportsAsyncCommit = true)
    (hbufp : STATE.buffer.isSome = true)
    (hpend : conn.isPageFlipPending = true) :
    CDRMOutput.commitState env cvt engineOk false STATE conn =
      { ret := CommitRet.failed, conn := conn,
        events := [CEvent.errorLog "drm: Cannot commit when a page-flip is awaiting"] } := by
  obtain ⟨crtc, hc⟩ := Option.isSome_iff_exists.mp hcrtc
  unfold CDRMOutput.commitState
  rw [hc]
  rcases hvrr with hv | hv <;> rcases hpres with hq | hq <;>
    simp [hactive, hbuf, hen, hfmt, hmode, hv, hq, hpend,
      Option.isSome_iff_ne_none.mp hbufp]

/-- Fixture: a pending output state committing only a buffer. -/
def stateBufOnly : COutputState :=
  { committedEnabled := false, committedFormat := false, committedMode := false,
    committedBuffer := true, enabled := true, adaptiveSync := false,
    presentationImmediate := false,
    mode := some { pixelX := 1920, pixelY := 1080, refreshRate := 60000,
                   modeInfo := some modeInfoA },
    customMode := none, buffer := some bufA }

/-- Fixture: `connA` with a page-flip pending. -/
def connPending : SDRMConnector := { connA with isPageFlipPending := true }

/-- C2 witness: the gate theorem at a concrete pending connector. -/
theorem C2_pageflip_gate_witness :
    CDRMOutput.commitState envA cvtA true false stateBufOnly connPending =
      { ret := CommitRet.failed, conn := connPending,
        events := [CEvent.errorLog "drm: Cannot commit when a page-flip is awaiting"] } :=
  C2_pageflip_gate envA cvtA true stateBufOnly connPending rfl rfl rfl rfl rfl rfl
    (Or.inl rfl) (Or.inl rfl) rfl rfl

/-! ## C3 — "No mode on enable commit" guard is inverted in the source -/

/-- Fixture: an enable commit with neither an explicit mode nor a custom
mode. -/
def stateEnableNoMode : COutputState :=
  { committedEnabled := true, committedFormat := false, committedMode := false,
    committedBuffer := false, enabled := true, adaptiveSync := false,
    presentationImmediate := false, mode := none, customMode := none, buffer := none }

/-- Fixture: the same enable commit but with a custom mode present. -/
def stateEnableCustom : COutputState :=
  { stateEnableNoMode with
    customMode := some { pixelX := 1920, pixelY := 1080, refreshRate := 60000,
                         modeInfo := some modeInfoA } }

/-- C3: the source guard is `!STATE.mode && STATE.customMode` instead of
`!STATE.mode && !STATE.customMode`.  Consequently (a) an enable commit with
NO mode at all is not rejected with "No mode on enable commit" — it passes
the guard and the code goes on to dereference the null `MODE` pointer
(modelled as the `crash` outcome, with no error log and no engine or kernel
call), and (b) an enable commit that does carry a custom mode is rejected
with exactly that error even though a mode is present. -/
theorem C3_code_behavior :
    (CDRMOutput.commitState envA cvtA true false stateEnableNoMode connA =
      { ret := CommitRet.crash, conn := connA, events := [] }) ∧
    (CDRMOutput.commitState envA cvtA true false stateEnableCustom connA =
      { ret := CommitRet.failed, conn := connA,
        events := [CEvent.errorLog "drm: No mode on enable commit"] }) := by
  constructor <;> rfl

/-! ## C6 — CVT mode synthesis -/

/-- The requested mode of claim C6's scenario: 1920x1080 at 60 Hz, with no
raw kernel mode blob. -/
def modeReq1080p : SOutputMode :=
  { pixelX := 1920, pixelY := 1080, refreshRate := 60000, modeInfo := none }

/-- C6: on the synthesized mode for a requested 1920x1080 mode, the source
stores the pixel HEIGHT into `hdisplay` (and bases `hsync_start` on it),
so `hdisplay` is 1080, not the requested pixel width 1920 as the claim
states; the sync polarity flags (NHSYNC|PVSYNC) and the "WxH" name do hold. -/
theorem C6_code_behavior :
    ((calculateModeOf cvtA modeReq1080p).hdisplay = 1080) ∧
    ((calculateModeOf cvtA modeReq1080p).hdisplay ≠ 1920) ∧
    ((calculateModeOf cvtA modeReq1080p).hsync_start = 1168) ∧
    ((calculateModeOf cvtA modeReq1080p).flags
      = (DRM_MODE_FLAG_NHSYNC ||| DRM_MODE_FLAG_PVSYNC)) ∧
    ((calculateModeOf cvtA modeReq1080p).name = "1920x1080") := by
  refine ⟨rfl, by decide, rfl, rfl, by decide⟩

/-! ## C8 — page-flip completion handling -/

/-- C8: for every delivered page-flip completion resolving to a connector,
(a) if the connector is disconnected or has no CRTC the event is silently
discarded — no present and no frame event are emitted (the pending flag is
cleared first, as in the source); (b) otherwise the pending flag is cleared,
`onPresent` runs, and a present event is emitted with presented true iff the
session is active, the kernel-supplied sequence and timestamp (usec scaled
to nsec), refresh interval `1e12 / refresh` nanoseconds (0 when the stored
refresh is 0) and all of the VSYNC / HW_CLOCK / HW_COMPLETION / ZEROCOPY
flags, followed by a frame event iff the session is active. -/
theorem C8_pageflip_events (sessionActive : Bool) (seq tv_sec tv_usec : Nat)
    (pageFlip : SDRMPageFlip) (conn : SDRMConnector)
    (hconn : pageFlip.connector = some conn) :
    ((conn.connected = false ∨ conn.crtc = none) →
      handlePF sessionActive seq tv_sec tv_usec pageFlip =
        (some { conn with isPageFlipPending := false }, [])) ∧
    (conn.connected = true → conn.crtc.isSome = true →
      handlePF sessionActive seq tv_sec tv_usec pageFlip =
        (some { conn with isPageFlipPending := false },
          [PFEvent.onPresent,
           PFEvent.present sessionActive seq tv_sec (tv_usec * 1000)
             (toInt32 (if conn.refresh ≠ 0 then Int.tdiv 1000000000000 conn.refresh else 0))
             true true true true]
            ++ (if sessionActive then [PFEvent.frame] else []))) := by
  constructor
  · intro h
    unfold handlePF
    rw [hconn]
    rcases h with h | h <;> simp [h]
  · intro h1 h2
    unfold handlePF
    rw [hconn]
    simp [h1, Option.isSome_iff_ne_none.mp h2]

/-- C8 witness: a completion on a connected connector with a CRTC at 60 Hz. -/
theorem C8_pageflip_events_witness :
    handlePF true 7 100 250 { connector := some connA } =
      (some { connA with isPageFlipPending := false },
        [PFEvent.onPresent,
         PFEvent.present true 7 100 (250 * 1000)
           (toInt32 (if connA.refresh ≠ 0 then Int.tdiv 1000000000000 connA.refresh else 0))
           true true true true]
          ++ (if true then [PFEvent.frame] else [])) :=
  (C8_pageflip_events true 7 100 250 { connector := some connA } connA rfl).2 rfl rfl

/-! ## C9 — hard cap of 32 CRTCs -/

/-- C9: if the kernel reports more than 32 CRTCs (and the per-CRTC queries
succeed so that the loop completes), resource initialization returns false
and the backend attempt produces no backend, whatever the earlier stages
did; with 32 or fewer CRTCs the cap does not cause failure — if the
remaining enumeration succeeds, `initResources` returns true. -/
theorem C9_crtc_cap (env : InitEnv) (res : drmModeRes) (l : List (Nat × Nat))
    (hres : env.getResources = some res)
    (hloop : crtcLoop env res.crtcs = some l) :
    (res.crtcs.length > 32 →
      CDRMBackend.initResources env = false ∧
      ∀ s1 s2 s3 s4 s5, CDRMBackend.attempt s1 s2 s3 s4 s5 env = false) ∧
    (res.crtcs.length ≤ 32 →
      ∀ planeIds, env.getPlaneResources = some planeIds →
        planeLoop env planeIds = true →
        CDRMBackend.initResources env = true) := by
  have hlen := crtcLoop_length env res.crtcs l hloop
  constructor
  · intro hgt
    have hi : CDRMBackend.initResources env = false := by
      unfold CDRMBackend.initResources
      have hl32 : l.length > 32 := by omega
      simp [hres, hloop, hl32]
    refine ⟨hi, ?_⟩
    intro s1 s2 s3 s4 s5
    unfold CDRMBackend.attempt
    rw [hi]
    simp
  · intro hle planeIds hpr hpl
    unfold CDRMBackend.initResources
    have hl32 : ¬ l.length > 32 := by omega
    simp [hres, hloop, hl32, hpr, hpl]

/-- An init environment whose kernel reports 33 CRTCs, every query
succeeding. -/
def env33 : InitEnv :=
  { getResources := some { crtcs := List.range 33 },
    getCrtc := fun _ => some 256, getCrtcProps := fun _ => true,
    getPlaneResources := some [], getPlane := fun _ => true, planeInit := fun _ => true }

/-- C9 witness: with 33 reported CRTCs, initialization fails and no backend
is produced. -/
theorem C9_crtc_cap_witness :
    CDRMBackend.initResources env33 = false ∧
    ∀ s1 s2 s3 s4 s5, CDRMBackend.attempt s1 s2 s3 s4 s5 env33 = false :=
  (C9_crtc_cap env33 { crtcs := List.range 33 }
    ((List.range 33).map (fun i => (i, 256))) rfl (by decide)).1 (by decide)

/-! ## C10 — the commit event and onCommit run after every engine call -/

/-- Whether an event is a kernel call made by the FB import step. -/
def CEvent.isKernel : CEvent → Bool
  | CEvent.kernel _ => true
  | _ => false

/-- Helper: the commit tail either crashes (null `MODE` or null primary
plane during apply) or its trace is the import's kernel calls followed by
exactly the engine call, the commit event and `onCommit`. -/
theorem commitTail_cases (cvt : di_cvt_options → di_cvt_timing) (engineOk onlyTest : Bool)
    (STATE : COutputState) (conn : SDRMConnector) (nr bl : Bool) (fl : Nat)
    (MODE : Option SOutputMode) (mainFB : Option CDRMFB) (kevents : List CEvent) :
    (CDRMOutput.commitTail cvt engineOk onlyTest STATE conn nr bl fl MODE mainFB kevents).ret
        = CommitRet.crash ∨
    (CDRMOutput.commitTail cvt engineOk onlyTest STATE conn nr bl fl MODE mainFB
        kevents).events
      = kevents ++ [CEvent.engineCommit onlyTest, CEvent.commitEmit, CEvent.onCommit] := by
  unfold CDRMOutput.commitTail
  split
  · exact Or.inl rfl
  · split
    · dsimp only
      split
      · exact Or.inl rfl
      · exact Or.inr rfl
    · dsimp only
      split
      · exact Or.inl rfl
      · exact Or.inr rfl

/-- Helper: every run of the output commit either crashes, or reaches the
engine and its trace is kernel calls followed by the engine call, the
commit event and `onCommit`, or is rejected before the engine with a trace
of kernel calls followed by a single error log. -/
theorem commit_events_cases (env : DRMEnv) (cvt : di_cvt_options → di_cvt_timing)
    (engineOk onlyTest : Bool) (STATE : COutputState) (conn : SDRMConnector) :
    (CDRMOutput.commitState env cvt engineOk onlyTest STATE conn).ret = CommitRet.crash ∨
    (∃ l, (∀ e ∈ l, CEvent.isKernel e = true) ∧
      (CDRMOutput.commitState env cvt engineOk onlyTest STATE conn).events =
        l ++ [CEvent.engineCommit onlyTest, CEvent.commitEmit, CEvent.onCommit]) ∨
    ((CDRMOutput.commitState env cvt engineOk onlyTest STATE conn).ret = CommitRet.failed ∧
      ∃ s calls, (CDRMOutput.commitState env cvt engineOk onlyTest STATE conn).events =
        List.map CEvent.kernel calls ++ [CEvent.errorLog s]) := by
  have hmap : ∀ calls : List KCall, ∀ e ∈ List.map CEvent.kernel calls,
      CEvent.isKernel e = true := by
    intro calls e he
    obtain ⟨c, _, rfl⟩ := List.mem_map.mp he
    rfl
  unfold CDRMOutput.commitState
  by_cases h1 : ¬ env.sessionActive
  · rw [if_pos h1]
    exact Or.inr (Or.inr ⟨rfl, _, [], rfl⟩)
  · rw [if_neg h1]
    cases hc : conn.crtc with
    | none => exact Or.inr (Or.inr ⟨rfl, _, [], rfl⟩)
    | some crtc =>
      try dsimp only
      by_cases h3 : STATE.committedEnabled ∧ STATE.enabled ∧
          (STATE.mode.isNone ∧ STATE.customMode.isSome)
      · rw [if_pos h3]
        exact Or.inr (Or.inr ⟨rfl, _, [], rfl⟩)
      · rw [if_neg h3]
        by_cases h4 : STATE.adaptiveSync ∧ ¬ conn.canDoVrr
        · rw [if_pos h4]
          exact Or.inr (Or.inr ⟨rfl, _, [], rfl⟩)
        · rw [if_neg h4]
          by_cases h5 : STATE.presentationImmediate ∧ ¬ env.supportsAsyncCommit
          · rw [if_pos h5]
            exact Or.inr (Or.inr ⟨rfl, _, [], rfl⟩)
          · rw [if_neg h5]
            by_cases h6 : STATE.committedBuffer ∧ STATE.buffer.isNone
            · rw [if_pos h6]
              exact Or.inr (Or.inr ⟨rfl, _, [], rfl⟩)
            · rw [if_neg h6]
              try dsimp only
              by_cases h7 : ¬ onlyTest ∧
                  (STATE.committedEnabled ∨ STATE.committedFormat ∨ STATE.committedMode) ∧
                  STATE.enabled ∧
                  (if STATE.mode.isSome then STATE.mode else STATE.customMode).isNone
              · rw [if_pos h7]
                exact Or.inl rfl
              · rw [if_neg h7]
                by_cases h8 : ¬ onlyTest ∧
                    ¬ ((STATE.committedEnabled ∨ STATE.committedFormat ∨ STATE.committedMode) ∨
                      ¬ STATE.committedBuffer) ∧
                    conn.isPageFlipPending
                · rw [if_pos h8]
                  exact Or.inr (Or.inr ⟨rfl, _, [], rfl⟩)
                · rw [if_neg h8]
                  cases hb : STATE.buffer with
                  | none =>
                    try dsimp only
                    rcases commitTail_cases cvt engineOk onlyTest STATE conn _ _ _ _ _ _
                      with h | h
                    · exact Or.inl h
                    · exact Or.inr (Or.inl ⟨[], by simp, by simpa using h⟩)
                  | some buf =>
                    try dsimp only
                    cases hp : crtc.primary with
                    | none => exact Or.inl rfl
                    | some prim =>
                      try dsimp only
                      cases hf : findMatchingFB prim buf with
                      | some fb =>
                        try dsimp only
                        rcases commitTail_cases cvt engineOk onlyTest STATE conn _ _ _ _ _ _
                          with h | h
                        · exact Or.inl h
                        · exact Or.inr (Or.inl ⟨[], by simp, by simpa using h⟩)
                      | none =>
                        try dsimp only
                        rcases hcr : CDRMFB.create env buf with ⟨ofb, b2, calls⟩
                        cases ofb with
                        | none => exact Or.inr (Or.inr ⟨rfl, _, _, rfl⟩)
                        | some fb =>
                          try dsimp only
                          rcases commitTail_cases cvt engineOk onlyTest STATE conn _ _ _ _ _ _
                            with h | h
                          · exact Or.inl h
                          · exact Or.inr (Or.inl ⟨_, hmap _, h⟩)

/-- C10: for every commit that passes the precondition checks and reaches
the engine call (and does not hit one of the source's null-pointer
dereferences), the output's commit event is emitted and the pending state's
`onCommit` runs afterwards, regardless of the engine's verdict — the trace
ends with engine call, commit event, `onCommit`, preceded only by kernel
calls of the FB import; and every commit rejected by a precondition check
emits neither an engine call nor a commit event nor an `onCommit`. -/
theorem C10_commit_event_emission (env : DRMEnv) (cvt : di_cvt_options → di_cvt_timing)
    (engineOk onlyTest : Bool) (STATE : COutputState) (conn : SDRMConnector)
    (hnocrash : (CDRMOutput.commitState env cvt engineOk onlyTest STATE conn).ret
      ≠ CommitRet.crash) :
    (∃ l, (∀ e ∈ l, CEvent.isKernel e = true) ∧
      (CDRMOutput.commitState env cvt engineOk onlyTest STATE conn).events =
        l ++ [CEvent.engineCommit onlyTest, CEvent.commitEmit, CEvent.onCommit]) ∨
    ((∀ t, CEvent.engineCommit t ∉
        (CDRMOutput.commitState env cvt engineOk onlyTest STATE conn).events) ∧
      CEvent.commitEmit ∉ (CDRMOutput.commitState env cvt engineOk onlyTest STATE conn).events ∧
      CEvent.onCommit ∉ (CDRMOutput.commitState env cvt engineOk onlyTest STATE conn).events ∧
      (CDRMOutput.commitState env cvt engineOk onlyTest STATE conn).ret = CommitRet.failed) := by
  rcases commit_events_cases env cvt engineOk onlyTest STATE conn with h | h | h
  · exact absurd h hnocrash
  · exact Or.inl h
  · obtain ⟨hret, s, calls, hev⟩ := h
    right
    refine ⟨?_, ?_, ?_, hret⟩
    · intro t hm
      rw [hev] at hm
      rcases List.mem_append.mp hm with hm2 | hm2
      · obtain ⟨c, _, hc⟩ := List.mem_map.mp hm2
        exact CEvent.noConfusion hc
      · simp at hm2
    · intro hm
      rw [hev] at hm
      rcases List.mem_append.mp hm with hm2 | hm2
      · obtain ⟨c, _, hc⟩ := List.mem_map.mp hm2
        exact CEvent.noConfusion hc
      · simp at hm2
    · intro hm
      rw [hev] at hm
      rcases List.mem_append.mp hm with hm2 | hm2
      · obtain ⟨c, _, hc⟩ := List.mem_map.mp hm2
        exact CEvent.noConfusion hc
      · simp at hm2

/-- C10 witness: a concrete buffer commit that reaches the engine — the
trace is the two import kernel calls, then engine call, commit event and
`onCommit`. -/
theorem C10_commit_event_emission_witness :
    (∃ l, (∀ e ∈ l, CEvent.isKernel e = true) ∧
      (CDRMOutput.commitState envA cvtA true false stateBufOnly connA).events =
        l ++ [CEvent.engineCommit false, CEvent.commitEmit, CEvent.onCommit]) ∨
    ((∀ t, CEvent.engineCommit t ∉
        (CDRMOutput.commitState envA cvtA true false stateBufOnly connA).events) ∧
      CEvent.commitEmit ∉ (CDRMOutput.commitState envA cvtA true false stateBufOnly connA).events ∧
      CEvent.onCommit ∉ (CDRMOutput.commitState envA cvtA true false stateBufOnly connA).events ∧
      (CDRMOutput.commitState envA cvtA true false stateBufOnly connA).ret
        = CommitRet.failed) :=
  C10_commit_event_emission envA cvtA true false stateBufOnly connA (by decide)
